import Mathlib

/-!
Verification development for the multi-carrier quote RPA bot (src/main.py).

The Python program drives a Selenium session through an ordered sequence of
form stages (start_bot), scrapes per-tier quote cards
(scrape_quotes_from_page), exposes a status endpoint (get_status), and uses a
searchable-dropdown protocol (select_custom_dropdown).  The definitions below
are a shallow embedding of that code: pure string manipulation is translated
directly, DOM lookups become Option-valued fields of explicit page/card
structures, exception-driven control flow becomes explicit branching on
success flags, and the module-global driver variable becomes explicit state.
-/

/-- Semantics of Python str.strip() whitespace characters. -/
def isPySpace (c : Char) : Bool :=
  c == ' ' || c == '\t' || c == '\n' || c == '\r' || c == '\x0b' || c == '\x0c'

/-- Semantics of Python str.strip(): drop leading and trailing whitespace. -/
def pyStrip (s : String) : String :=
  ⟨((s.data.dropWhile isPySpace).reverse.dropWhile isPySpace).reverse⟩

/-- Boolean prefix test on character lists. -/
def hasPrefixChars : List Char → List Char → Bool
  | [], _ => true
  | _ :: _, [] => false
  | p :: ps, c :: cs => p == c && hasPrefixChars ps cs

/-- Worker for pyReplace: fuel-indexed scan replacing each leftmost
non-overlapping occurrence of pat by rep, continuing after the replacement,
exactly as Python str.replace does for a non-empty pattern. -/
def replaceFuel (pat rep : List Char) : Nat → List Char → List Char
  | _, [] => []
  | 0, l => l
  | fuel + 1, c :: cs =>
    if hasPrefixChars pat (c :: cs) then
      rep ++ replaceFuel pat rep fuel (List.drop (pat.length - 1) cs)
    else
      c :: replaceFuel pat rep fuel cs

/-- Semantics of Python s.replace(pat, rep) for the non-empty patterns used in
the source (a blank-prefixed "logo", "Logo", "logo", a dollar sign, a comma). -/
def pyReplace (s pat rep : String) : String :=
  if pat.data = [] then s
  else ⟨replaceFuel pat.data rep.data s.data.length s.data⟩

/-- Python truthiness of an optional string: None and the empty string are
falsy, every other string is truthy. -/
def pyTruthy : Option String → Bool
  | none => false
  | some s => s != ""

/-! ## Quote extraction (scrape_quotes_from_page, src/main.py lines 1945-2127) -/

/-- One old-structure rate block inside a card (a div whose class contains
"rate").  Each field is the stripped-later text of a sub-element, or none when
the corresponding find_element raises (element absent). -/
structure RateBlock where
  amountText : Option String
  dollarText : Option String
  periodText : Option String
deriving DecidableEq, Repr

/-- One rate__amount leaf element found by the method-3 CSS search, together
with its ancestor rate container when the ancestor XPath lookup succeeds. -/
structure AmountLeaf where
  amountText : String
  containerDollarText : Option String
  containerPeriodText : Option String
  containerFound : Bool
deriving DecidableEq, Repr

/-- A located result card, as the scraping loop observes it: logo alt
attribute (none when no logo img is found), the new-structure price element
text and period label text, and the old-structure rate blocks for the two
fallback extraction methods. -/
structure Card where
  logoAlt : Option String
  priceText : Option String
  periodLabel : Option String
  rateBlocks : List RateBlock
  rateAmounts : List AmountLeaf
deriving DecidableEq, Repr

/-- A scraped quote record, mirroring the quote_data dict built at
src/main.py lines 2111-2117. -/
structure QuoteData where
  company : String
  price : String
  bodily_injury : String
  comprehensive_deductible : Option String
  plan_type : String
deriving DecidableEq, Repr

/-- Company-name cleanup applied to the logo alt text (src/main.py line 2018):
drop " logo", "Logo" and "logo" substrings, then strip. -/
def strip_logo_alt (alt : String) : String :=
  pyStrip (pyReplace (pyReplace (pyReplace alt " logo" "") "Logo" "") "logo" "")

/-- Company-name extraction (src/main.py lines 2008-2022): default "Unknown"
when no logo image is found; otherwise the cleaned alt text, with "Unknown"
restored when the cleanup leaves the empty string. -/
def extract_company : Option String → String
  | none => "Unknown"
  | some alt =>
    let c := strip_logo_alt alt
    if c = "" then "Unknown" else c

/-- Method 1 (new structure, src/main.py lines 2029-2045): read the
results-card_price element text; when its strip is non-empty, read the period
label (default "/mo" when the period element is absent) and produce
(price, amount) where price prepends a dollar sign to the element text and
amount is the text with dollar signs and commas removed. -/
def method1 (c : Card) : Option String × Option String :=
  match c.priceText with
  | none => (none, none)
  | some t =>
    let amountText := pyStrip t
    if amountText = "" then (none, none)
    else
      let period :=
        match c.periodLabel with
        | none => "/mo"
        | some p => pyStrip p
      let amount := pyStrip (pyReplace (pyReplace amountText "$" "") "," "")
      (some (pyStrip ("$" ++ amountText ++ period)), some amount)

/-- Method 2 (old structure, src/main.py lines 2050-2076): scan the rate
blocks; the first one holding an amount element with non-empty stripped text
wins, with dollar sign defaulting to "$" and period defaulting to "". -/
def method2 : List RateBlock → Option (String × String)
  | [] => none
  | b :: rest =>
    match b.amountText with
    | none => method2 rest
    | some t =>
      let amt := pyStrip t
      if amt = "" then method2 rest
      else
        let dollar :=
          match b.dollarText with
          | none => "$"
          | some d => if pyStrip d = "" then "$" else pyStrip d
        let period :=
          match b.periodText with
          | none => ""
          | some p => pyStrip p
        some (pyStrip (dollar ++ amt ++ period), amt)

/-- Method 3 (src/main.py lines 2081-2107): scan rate__amount leaves; a leaf
with non-empty stripped text whose ancestor rate container is found wins; a
missing ancestor makes the loop continue to the next leaf. -/
def method3 : List AmountLeaf → Option (String × String)
  | [] => none
  | leaf :: rest =>
    let amt := pyStrip leaf.amountText
    if amt = "" then method3 rest
    else if leaf.containerFound = false then method3 rest
    else
      let dollar :=
        match leaf.containerDollarText with
        | none => "$"
        | some d => if pyStrip d = "" then "$" else pyStrip d
      let period :=
        match leaf.containerPeriodText with
        | none => ""
        | some p => pyStrip p
      some (pyStrip (dollar ++ amt ++ period), amt)

/-- Layered price extraction for one card: method 1, then method 2 and
method 3, each fallback entered only while price or amount is still falsy
(the Python guard "if not price or not amount"), and each fallback leaving
the previous values in place when it finds nothing. -/
def extract_price_amount (c : Card) : Option String × Option String :=
  let pa := method1 c
  let pa :=
    if pyTruthy pa.1 && pyTruthy pa.2 then pa
    else
      match method2 c.rateBlocks with
      | some (p, a) => (some p, some a)
      | none => pa
  if pyTruthy pa.1 && pyTruthy pa.2 then pa
  else
    match method3 c.rateAmounts with
    | some (p, a) => (some p, some a)
    | none => pa

/-- Per-card record construction (src/main.py lines 2109-2121): a record is
appended only when the extracted price is truthy ("if price:"); otherwise the
card is skipped.  DOM exceptions inside the per-card try block only skip the
card, so they are subsumed by the no-record case. -/
def scrapeCard (plan_type bodily_injury : String)
    (comprehensive_deductible : Option String) (c : Card) : Option QuoteData :=
  match (extract_price_amount c).1 with
  | none => none
  | some p =>
    if p = "" then none
    else some
      { company := extract_company c.logoAlt
        price := p
        bodily_injury := bodily_injury
        comprehensive_deductible := comprehensive_deductible
        plan_type := plan_type }

/-- The scraping loop over all located cards of the active tier
(src/main.py lines 2001-2127), in order. -/
def scrape_quotes_from_page (plan_type bodily_injury : String)
    (comprehensive_deductible : Option String) (cards : List Card) :
    List QuoteData :=
  cards.filterMap (scrapeCard plan_type bodily_injury comprehensive_deductible)

/-! ## Status endpoint (get_status, src/main.py lines 2266-2291) -/

/-- Observable state of a live driver: what current_url and title return, and
whether those calls succeed (an unresponsive session raises, carrying an
error text). -/
structure DriverState where
  currentUrl : String
  title : String
  responsive : Bool
  errMsg : String
deriving DecidableEq, Repr

/-- The JSON payload shapes returned by the status endpoint, as one record
with optional fields. -/
structure StatusPayload where
  status : String
  message : Option String
  current_url : Option String
  title : Option String
deriving DecidableEq, Repr

/-- The status endpoint: reads the global driver and returns a payload plus
the (unchanged) driver state, making the absence of side effects explicit. -/
def get_status (driver : Option DriverState) :
    StatusPayload × Option DriverState :=
  match driver with
  | none =>
    ({ status := "no_browser", message := some "No browser session active",
       current_url := none, title := none }, none)
  | some d =>
    if d.responsive then
      ({ status := "active", message := none,
         current_url := some d.currentUrl, title := some d.title }, some d)
    else
      ({ status := "error",
         message := some ("Browser session error: " ++ d.errMsg),
         current_url := none, title := none }, some d)

/-! ## Searchable dropdown protocol (select_custom_dropdown, lines 124-219) -/

/-- Success flags for the interaction points of select_custom_dropdown; a
false flag means the corresponding lookup or action raised even after its
inline fallbacks, which the source converts into a False return. -/
structure SelectWorld where
  inputFound : Bool
  controlFound : Bool
  openClickOk : Bool
  reFindOk : Bool
  confirmOk : Bool
deriving DecidableEq, Repr

/-- select_custom_dropdown over a field whose input currently displays
initial text: resolve the input, resolve and click the control region, then
unconditionally clear the input and type the requested value character by
character, and press Enter to accept the top filtered option.  Returns the
success flag and the text left in the input.  There is no pre-filled check:
the clear happens on every invocation. -/
def select_custom_dropdown (initial value : String) (w : SelectWorld) :
    Bool × String :=
  if w.inputFound = false then (false, initial)
  else if w.controlFound = false then (false, initial)
  else if w.openClickOk = false then (false, initial)
  else if w.reFindOk = false then (false, initial)
  else if w.confirmOk then (true, value) else (false, value)

/-- The trim-stage pre-filled check (src/main.py lines 1143-1147): read the
custom-dropdown single-value element text; when present with non-empty strip,
the whole selection is skipped and the stripped pre-existing value is the one
logged and kept.  Returns some recorded value on skip, none when selection
proceeds. -/
def trim_step (singleValueText : Option String) : Option String :=
  match singleValueText with
  | none => none
  | some s => if pyStrip s = "" then none else some (pyStrip s)

/-! ## The step wizard (start_bot, src/main.py lines 229-2263) -/

/-- The caller-supplied vehicle fields of the start request
(src/main.py lines 222-227); every field is optional with default None. -/
structure StartRequest where
  year : Option String
  make : Option String
  model : Option String
deriving DecidableEq, Repr

/-- The Python guard "if request.year and request.make and request.model"
(src/main.py line 1101): vehicle selection runs only when all three fields
are truthy, so None and the empty string both disable it. -/
def vehicle_info_provided (req : StartRequest) : Bool :=
  pyTruthy req.year && pyTruthy req.make && pyTruthy req.model

/-- Identifiers for the mandatory wizard stages of start_bot.  Step 7 is
split into its three sub-selections because each has its own failure return;
steps 12-14 (tier scraping) are absent because their failures never abort the
run. -/
inductive StageId where
  | s1 | s2 | s3 | s4 | s5 | s6
  | s7year | s7make | s7model
  | s8 | s9 | s10 | s11
deriving DecidableEq, Fintype, Repr

/-- The stage-identifying part of the structured error message each stage
failure returns (the source appends the dynamic exception text after these
prefixes; step 1 returns its fixed message verbatim). -/
def errorMessageFor : StageId → String
  | StageId.s1 => "Failed to find or click the button after trying all methods"
  | StageId.s2 => "Step 2 failed"
  | StageId.s3 => "Step 3 failed"
  | StageId.s4 => "Step 4 failed"
  | StageId.s5 => "Step 5 failed"
  | StageId.s6 => "Step 6 failed"
  | StageId.s7year => "Step 7 failed: Could not select vehicle year"
  | StageId.s7make => "Step 7 failed: Could not select vehicle make"
  | StageId.s7model => "Step 7 failed: Could not select vehicle model"
  | StageId.s8 => "Step 8 failed"
  | StageId.s9 => "Step 9 failed"
  | StageId.s10 => "Step 10 failed"
  | StageId.s11 => "Step 11 failed"

/-- Environment of one start_bot run: whether driver creation succeeds,
whether the navigation/stealth region before step 1 succeeds (its failures
reach the outer except handler), per-stage success flags, and whether the
basic/better tier-switch clicks of steps 13 and 14 succeed (their failures
only empty that tier's list). -/
structure BotWorld where
  initOk : Bool
  navOk : Bool
  step1Ok : Bool
  step2Ok : Bool
  step3Ok : Bool
  step4Ok : Bool
  step5Ok : Bool
  step6Ok : Bool
  step7YearOk : Bool
  step7MakeOk : Bool
  step7ModelOk : Bool
  step8Ok : Bool
  step9Ok : Bool
  step10Ok : Bool
  step11Ok : Bool
  basicClickOk : Bool
  betterClickOk : Bool
deriving DecidableEq, Repr

/-- The ordered mandatory stages of a run, each paired with its success flag.
The three vehicle sub-stages appear exactly when the request guard holds
(src/main.py lines 1100-1275). -/
def stageList (req : StartRequest) (w : BotWorld) : List (StageId × Bool) :=
  [(StageId.s1, w.step1Ok), (StageId.s2, w.step2Ok), (StageId.s3, w.step3Ok),
   (StageId.s4, w.step4Ok), (StageId.s5, w.step5Ok), (StageId.s6, w.step6Ok)]
  ++ (if vehicle_info_provided req then
        [(StageId.s7year, w.step7YearOk), (StageId.s7make, w.step7MakeOk),
         (StageId.s7model, w.step7ModelOk)]
      else [])
  ++ [(StageId.s8, w.step8Ok), (StageId.s9, w.step9Ok),
      (StageId.s10, w.step10Ok), (StageId.s11, w.step11Ok)]

/-- Trace of a sequential run over the stage list: stages attempted in order,
stages that completed, and the first failing stage when one exists. -/
structure WizardTrace where
  attempted : List StageId
  completed : List StageId
  firstFailed : Option StageId
deriving DecidableEq, Repr

/-- Sequential execution with early exit: each stage is attempted only after
every earlier stage completed; the first failure stops the run. -/
def runStages : List (StageId × Bool) → WizardTrace
  | [] => ⟨[], [], none⟩
  | (s, ok) :: rest =>
    if ok then
      let t := runStages rest
      ⟨s :: t.attempted, s :: t.completed, t.firstFailed⟩
    else ⟨[s], [], some s⟩

/-- The two response shapes of the start endpoint: a structured error dict,
or the per-tier quote collections with their counts (the counts are the list
lengths, src/main.py lines 2239-2246). -/
inductive BotResponse where
  | errorResp (message : String)
  | quotes (minimum basic better : List QuoteData)
deriving DecidableEq, Repr

/-- Everything observable about one start_bot invocation: the wizard trace,
the returned payload, and whether a browser session is still active after the
return. -/
structure RunResult where
  attempted : List StageId
  completed : List StageId
  response : BotResponse
  sessionActive : Bool
deriving DecidableEq, Repr

/-- start_bot (src/main.py lines 229-2263).  Driver-creation failure returns
its own error from the inner handler with no live session; a failure in the
navigation/stealth region reaches the outer except handler, which quits the
driver before returning.  A mandatory-stage failure returns its structured
error directly from inside the big try block: no quit is executed on that
path, so the session stays active.  On normal completion the three tiers are
scraped (a failed tier-switch click degrades that tier to an empty list) and
the driver is quit before the quote payload is returned. -/
def start_bot (req : StartRequest) (w : BotWorld)
    (minCards basicCards betterCards : List Card) : RunResult :=
  if w.initOk = false then
    ⟨[], [], BotResponse.errorResp "Failed to initialize Chrome driver", false⟩
  else if w.navOk = false then
    ⟨[], [], BotResponse.errorResp "Unexpected error", false⟩
  else
    let t := runStages (stageList req w)
    match t.firstFailed with
    | some s =>
      ⟨t.attempted, t.completed, BotResponse.errorResp (errorMessageFor s), true⟩
    | none =>
      ⟨t.attempted, t.completed,
       BotResponse.quotes
         (scrape_quotes_from_page "minimum" "$15k/$30k" (some "0") minCards)
         (if w.basicClickOk then
            scrape_quotes_from_page "basic" "$25k/$50k" (some "1000") basicCards
          else [])
         (if w.betterClickOk then
            scrape_quotes_from_page "better" "$50k/$100k" (some "1000") betterCards
          else []),
       false⟩

/-! ## Session lifecycle operations of one start invocation -/

/-- The two session-affecting operations start_bot performs: quitting a
driver and creating one. -/
inductive SessOp where
  | teardown
  | create
deriving DecidableEq, Repr

/-- Effect of a session operation on the number of active browser sessions. -/
def applySessOp : Nat → SessOp → Nat
  | n, SessOp.teardown => n - 1
  | n, SessOp.create => n + 1

/-- Active-session counts after each successive operation. -/
def countsScan (n : Nat) : List SessOp → List Nat
  | [] => []
  | op :: rest => applySessOp n op :: countsScan (applySessOp n op) rest

/-- The active-session count immediately after the first create operation,
when one occurs. -/
def afterFirstCreate (n : Nat) : List SessOp → Option Nat
  | [] => none
  | SessOp.create :: _ => some (n + 1)
  | SessOp.teardown :: rest => afterFirstCreate (n - 1) rest

/-- The session operations one start_bot invocation performs, in program
order (src/main.py lines 249-255, 313-318, 2229-2237, 2250-2257): quit any
existing driver first, then create the new one when initialization succeeds;
the final quit happens on normal completion and on the outer-handler path,
but not after a mandatory-stage failure return. -/
def startSessionOps (prevActive : Bool) (req : StartRequest) (w : BotWorld) :
    List SessOp :=
  (if prevActive then [SessOp.teardown] else [])
  ++ (if w.initOk = false then []
      else
        SessOp.create ::
          (if w.navOk = false then [SessOp.teardown]
           else
             match (runStages (stageList req w)).firstFailed with
             | some _ => []
             | none => [SessOp.teardown]))

/-! ## Helper lemmas -/

/-- A run over an all-successful prefix attempts and completes that prefix and
then behaves as the run over the remainder. -/
theorem runStages_append_ok (pre rest : List (StageId × Bool))
    (h : ∀ p ∈ pre, p.2 = true) :
    runStages (pre ++ rest) =
      ⟨pre.map Prod.fst ++ (runStages rest).attempted,
       pre.map Prod.fst ++ (runStages rest).completed,
       (runStages rest).firstFailed⟩ := by
  induction pre with
  | nil => simp [runStages]
  | cons p ps ih =>
    obtain ⟨s, b⟩ := p
    have hb : b = true := h (s, b) (List.mem_cons_self _ _)
    subst hb
    have hps : ∀ q ∈ ps, q.2 = true := fun q hq => h q (List.mem_cons_of_mem _ hq)
    simp [runStages, ih hps]

/-- The first stage of the list is always attempted. -/
theorem runStages_head_attempted (s : StageId) (b : Bool)
    (rest : List (StageId × Bool)) :
    s ∈ (runStages ((s, b) :: rest)).attempted := by
  cases b <;> simp [runStages]

/-- Only listed stages are ever attempted. -/
theorem runStages_attempted_subset (l : List (StageId × Bool)) :
    ∀ s ∈ (runStages l).attempted, s ∈ l.map Prod.fst := by
  induction l with
  | nil => simp [runStages]
  | cons p ps ih =>
    obtain ⟨a, b⟩ := p
    intro s hs
    cases b with
    | true =>
      simp only [runStages, if_true] at hs
      rcases List.mem_cons.mp hs with h1 | h2
      · simp [h1]
      · exact List.mem_cons_of_mem _ (ih s h2)
    | false =>
      simp only [runStages, if_false] at hs
      rcases List.mem_cons.mp hs with h1 | h2
      · simp [h1]
      · simp at h2
  
/-- The first failing stage, when there is one, is a listed stage. -/
theorem runStages_firstFailed_mem (l : List (StageId × Bool)) (s : StageId)
    (h : (runStages l).firstFailed = some s) : s ∈ l.map Prod.fst := by
  induction l with
  | nil => simp [runStages] at h
  | cons p ps ih =>
    obtain ⟨a, b⟩ := p
    cases b with
    | true =>
      simp only [runStages, if_true] at h
      exact List.mem_cons_of_mem _ (ih h)
    | false =>
      simp only [runStages, if_false] at h
      simp at h
      simp [h]

/-- An emitted record never carries an empty price. -/
theorem scrapeCard_price_ne (pt bi : String) (cd : Option String) (c : Card)
    (q : QuoteData) (h : scrapeCard pt bi cd c = some q) : q.price ≠ "" := by
  unfold scrapeCard at h
  rcases hp : (extract_price_amount c).1 with _ | p
  · rw [hp] at h; exact absurd h (by simp)
  · rw [hp] at h
    dsimp only at h
    by_cases hpe : p = ""
    · simp [hpe] at h
    · simp only [if_neg hpe, Option.some.injEq] at h
      rw [← h]
      simpa using hpe

/-- Normalization used to state that empty-string vehicle fields behave like
omitted ones: map some-empty to none and keep everything else. -/
def noneifyEmpty : Option String → Option String
  | none => none
  | some s => if s = "" then none else some s

/-- Python truthiness is invariant under normalizing some-empty to none. -/
theorem pyTruthy_noneifyEmpty (x : Option String) :
    pyTruthy (noneifyEmpty x) = pyTruthy x := by
  cases x with
  | none => rfl
  | some s =>
    by_cases hs : s = "" <;> simp [noneifyEmpty, pyTruthy, hs]

/-! ## Concrete fixtures -/

/-- A run environment in which every lookup and interaction succeeds. -/
def allOkWorld : BotWorld :=
  { initOk := true, navOk := true, step1Ok := true, step2Ok := true,
    step3Ok := true, step4Ok := true, step5Ok := true, step6Ok := true,
    step7YearOk := true, step7MakeOk := true, step7ModelOk := true,
    step8Ok := true, step9Ok := true, step10Ok := true, step11Ok := true,
    basicClickOk := true, betterClickOk := true }

/-- All-ok except the step-1 compare-insurance button is never found. -/
def step1FailWorld : BotWorld := { allOkWorld with step1Ok := false }

/-- All-ok except the step-3 purchase-timeframe button click fails. -/
def step3FailWorld : BotWorld := { allOkWorld with step3Ok := false }

/-- A dropdown interaction in which every sub-action succeeds. -/
def allOkSelect : SelectWorld :=
  { inputFound := true, controlFound := true, openClickOk := true,
    reFindOk := true, confirmOk := true }

/-- A card with a price element but no logo image. -/
def plainCard : Card :=
  { logoAlt := none, priceText := some "100", periodLabel := none,
    rateBlocks := [], rateAmounts := [] }

/-- The scenario card of the spec, read literally: the price element text is
the displayed "$120". -/
def acmeCardDollarText : Card :=
  { logoAlt := some "Acme Insurance logo", priceText := some "$120",
    periodLabel := some "/mo", rateBlocks := [], rateAmounts := [] }

/-- The scenario card with a bare numeric price element text. -/
def acmeCardBareText : Card := { acmeCardDollarText with priceText := some "120" }

/-! ## Shared facts about start_bot -/

/-- When driver creation and navigation succeed, the attempted stages of the
run are those of the sequential stage execution. -/
theorem start_bot_attempted_eq (req : StartRequest) (w : BotWorld)
    (a b c : List Card) (hinit : w.initOk = true) (hnav : w.navOk = true) :
    (start_bot req w a b c).attempted = (runStages (stageList req w)).attempted := by
  simp only [start_bot, hinit, hnav]
  cases hf : (runStages (stageList req w)).firstFailed <;> simp [hf]

/-- Without the vehicle guard, the stage list consists of the fixed ten
non-vehicle stages. -/
theorem stageList_map_fst_not_provided (req : StartRequest) (w : BotWorld)
    (hprov : vehicle_info_provided req = false) :
    (stageList req w).map Prod.fst =
      [StageId.s1, StageId.s2, StageId.s3, StageId.s4, StageId.s5, StageId.s6,
       StageId.s8, StageId.s9, StageId.s10, StageId.s11] := by
  simp [stageList, hprov]

/-- When the vehicle guard is off, none of the vehicle sub-stages is ever
attempted, whatever the rest of the environment does. -/
theorem vehicle_not_attempted_of_not_provided (req : StartRequest)
    (w : BotWorld) (a b c : List Card)
    (hprov : vehicle_info_provided req = false) :
    StageId.s7year ∉ (start_bot req w a b c).attempted
    ∧ StageId.s7make ∉ (start_bot req w a b c).attempted
    ∧ StageId.s7model ∉ (start_bot req w a b c).attempted := by
  cases hinit : w.initOk with
  | false =>
    simp [start_bot, hinit]
  | true =>
    cases hnav : w.navOk with
    | false => simp [start_bot, hinit, hnav]
    | true =>
      rw [start_bot_attempted_eq req w a b c hinit hnav] at *
      refine ⟨fun hm => ?_, fun hm => ?_, fun hm => ?_⟩ <;>
      · have := runStages_attempted_subset (stageList req w) _ hm
        rw [stageList_map_fst_not_provided req w hprov] at this
        simp at this

/-! ## Claim C1 -/

/-- C1 counterexample: the claim says every exit path of start tears the
session down, but when step 1 fails (the compare-insurance button is never
found) start_bot returns its structured error while the session it created is
still active. -/
theorem C1_counterexample :
    (start_bot ⟨none, none, none⟩ step1FailWorld [] [] []).sessionActive = true
    ∧ (start_bot ⟨none, none, none⟩ step1FailWorld [] [] []).response =
        BotResponse.errorResp
          "Failed to find or click the button after trying all methods" := by
  decide

/-- C1 (amended): after a start invocation returns, a browser session remains
active exactly when the run was aborted by a mandatory-stage failure; normal
completion, driver-creation failure and the unexpected-fault path all return
with no active session. -/
theorem C1_amended_session_teardown (req : StartRequest) (w : BotWorld)
    (minCards basicCards betterCards : List Card) :
    (start_bot req w minCards basicCards betterCards).sessionActive = true ↔
      (w.initOk = true ∧ w.navOk = true ∧
        (runStages (stageList req w)).firstFailed ≠ none) := by
  cases hinit : w.initOk with
  | false => simp [start_bot, hinit]
  | true =>
    cases hnav : w.navOk with
    | false => simp [start_bot, hinit, hnav]
    | true =>
      cases hf : (runStages (stageList req w)).firstFailed with
      | none => simp [start_bot, hinit, hnav, hf]
      | some s => simp [start_bot, hinit, hnav, hf]

/-! ## Claim C2 -/

/-- C2 counterexample: with no active session, the status endpoint does not
return the payload with status "no_session"; it returns status "no_browser"
together with a message field. -/
theorem C2_counterexample :
    (get_status none).1.status = "no_browser"
    ∧ (get_status none).1 ≠
        { status := "no_session", message := none,
          current_url := none, title := none }
    ∧ "no_browser" ≠ "no_session" := by
  decide

/-- C2 (amended): with no active session the status endpoint returns exactly
the payload with status "no_browser" and message "No browser session active",
and the endpoint never changes the session state. -/
theorem C2_amended_status_no_browser :
    get_status none =
      ({ status := "no_browser", message := some "No browser session active",
         current_url := none, title := none }, none)
    ∧ ∀ d : Option DriverState, (get_status d).2 = d := by
  refine ⟨rfl, fun d => ?_⟩
  cases d with
  | none => rfl
  | some dd => cases hdd : dd.responsive <;> simp [get_status, hdd]

/-! ## Claim C3 -/

/-- C3: for every tier and every list of located cards, no emitted record has
an empty price (a card without an extractable price yields no record), and
the number of emitted records is at most the number of located cards. -/
theorem C3_no_empty_price_and_card_bound (pt bi : String) (cd : Option String)
    (cards : List Card) :
    (∀ q ∈ scrape_quotes_from_page pt bi cd cards, q.price ≠ "")
    ∧ (scrape_quotes_from_page pt bi cd cards).length ≤ cards.length := by
  constructor
  · intro q hq
    rcases List.mem_filterMap.mp hq with ⟨c, _, hc⟩
    exact scrapeCard_price_ne pt bi cd c q hc
  · exact List.length_filterMap_le _ _

/-- C3 witness: on a concrete one-card page the emitted record has a
non-empty price and the record count is bounded by the card count. -/
theorem C3_witness :
    (⟨"Unknown", "$100/mo", "$15k/$30k", some "0", "minimum"⟩ : QuoteData)
      ∈ scrape_quotes_from_page "minimum" "$15k/$30k" (some "0") [plainCard]
    ∧ (⟨"Unknown", "$100/mo", "$15k/$30k", some "0", "minimum"⟩ : QuoteData).price ≠ ""
    ∧ (scrape_quotes_from_page "minimum" "$15k/$30k" (some "0") [plainCard]).length ≤ 1 :=
  ⟨by decide,
   (C3_no_empty_price_and_card_bound "minimum" "$15k/$30k" (some "0") [plainCard]).1
     ⟨"Unknown", "$100/mo", "$15k/$30k", some "0", "minimum"⟩ (by decide),
   by simpa using
     (C3_no_empty_price_and_card_bound "minimum" "$15k/$30k" (some "0") [plainCard]).2⟩

/-! ## Claim C4 -/

/-- C4 counterexample: the claim says select is a no-op skip whenever the
field already displays a non-empty value; in fact select_custom_dropdown has
no pre-filled check at all: invoked on a field displaying "2020" with request
"2018", it clears the field and leaves "2018", not the pre-existing value. -/
theorem C4_counterexample :
    select_custom_dropdown "2020" "2018" allOkSelect = (true, "2018")
    ∧ (select_custom_dropdown "2020" "2018" allOkSelect).2 ≠ "2020" := by
  decide

/-- C4 (amended): select_custom_dropdown always clears and overwrites the
field with the requested value regardless of any pre-existing text; the
pre-filled skip-and-record behavior exists only in the trim stage, which
skips selection and keeps the stripped pre-existing single-value text when it
is non-empty. -/
theorem C4_amended_dropdown_overwrite (initial value : String) (w : SelectWorld)
    (h1 : w.inputFound = true) (h2 : w.controlFound = true)
    (h3 : w.openClickOk = true) (h4 : w.reFindOk = true)
    (h5 : w.confirmOk = true) (s : String) (hs : pyStrip s ≠ "") :
    select_custom_dropdown initial value w = (true, value)
    ∧ trim_step (some s) = some (pyStrip s) := by
  constructor
  · simp [select_custom_dropdown, h1, h2, h3, h4, h5]
  · simp [trim_step, hs]

/-- C4 amended witness at a concrete pre-filled field and preset trim. -/
theorem C4_witness :
    select_custom_dropdown "preset text" "Camry" allOkSelect = (true, "Camry")
    ∧ trim_step (some " LE ") = some "LE" := by
  have h := C4_amended_dropdown_overwrite "preset text" "Camry" allOkSelect
    rfl rfl rfl rfl rfl " LE " (by decide)
  exact ⟨h.1, by rw [h.2]; decide⟩

/-! ## Claim C5 -/

/-- C5 counterexample: the spec scenario expects price "$120/mo" for a basic
tier card with logo alt "Acme Insurance logo" and displayed price text "$120"
with period "/mo"; the code prepends a dollar sign to the price element text
unconditionally, so the emitted record carries price "$$120/mo". -/
theorem C5_counterexample :
    scrape_quotes_from_page "basic" "$25k/$50k" (some "1000") [acmeCardDollarText]
      = [⟨"Acme Insurance", "$$120/mo", "$25k/$50k", some "1000", "basic"⟩]
    ∧ ¬ (∃ q ∈ scrape_quotes_from_page "basic" "$25k/$50k" (some "1000")
          [acmeCardDollarText], q.price = "$120/mo") := by
  decide

/-- C5 (amended): the company is "Acme Insurance" and the tier is "basic" as
claimed, but the price is built by prepending a dollar sign to the price
element text: element text "120" with period "/mo" yields "$120/mo", while
element text "$120" yields "$$120/mo". -/
theorem C5_amended_acme_scenario :
    scrape_quotes_from_page "basic" "$25k/$50k" (some "1000") [acmeCardBareText]
      = [⟨"Acme Insurance", "$120/mo", "$25k/$50k", some "1000", "basic"⟩]
    ∧ scrape_quotes_from_page "basic" "$25k/$50k" (some "1000") [acmeCardDollarText]
      = [⟨"Acme Insurance", "$$120/mo", "$25k/$50k", some "1000", "basic"⟩] := by
  decide

/-! ## Claim C6 -/

/-- C6: when the stage list splits as an all-successful prefix followed by the
first failing mandatory stage, the run halts there: exactly the earlier
stages complete, the failing stage is the last one attempted (nothing beyond
it), and the response is the structured error of that stage - whose message
determines the stage uniquely - rather than any quote payload. -/
theorem C6_halt_on_first_failure (req : StartRequest) (w : BotWorld)
    (minCards basicCards betterCards : List Card)
    (pre post : List (StageId × Bool)) (s : StageId)
    (hinit : w.initOk = true) (hnav : w.navOk = true)
    (hsplit : stageList req w = pre ++ (s, false) :: post)
    (hpre : ∀ p ∈ pre, p.2 = true) :
    (start_bot req w minCards basicCards betterCards).response
        = BotResponse.errorResp (errorMessageFor s)
    ∧ (start_bot req w minCards basicCards betterCards).completed
        = pre.map Prod.fst
    ∧ (start_bot req w minCards basicCards betterCards).attempted
        = pre.map Prod.fst ++ [s]
    ∧ ∀ a b : StageId, errorMessageFor a = errorMessageFor b → a = b := by
  have hrun : runStages (stageList req w) =
      ⟨pre.map Prod.fst ++ [s], pre.map Prod.fst, some s⟩ := by
    rw [hsplit, runStages_append_ok pre _ hpre]
    simp [runStages]
  refine ⟨?_, ?_, ?_, by decide⟩ <;> simp [start_bot, hinit, hnav, hrun]

/-- C6 witness: with step 3 failing and everything earlier succeeding, the
run completes exactly steps 1 and 2, attempts nothing beyond step 3, and
returns the step-3 structured error. -/
theorem C6_witness :
    (start_bot ⟨none, none, none⟩ step3FailWorld [] [] []).response
        = BotResponse.errorResp "Step 3 failed"
    ∧ (start_bot ⟨none, none, none⟩ step3FailWorld [] [] []).completed
        = [StageId.s1, StageId.s2]
    ∧ (start_bot ⟨none, none, none⟩ step3FailWorld [] [] []).attempted
        = [StageId.s1, StageId.s2, StageId.s3]
    ∧ ∀ a b : StageId, errorMessageFor a = errorMessageFor b → a = b := by
  have h := C6_halt_on_first_failure ⟨none, none, none⟩ step3FailWorld [] [] []
    [(StageId.s1, true), (StageId.s2, true)]
    [(StageId.s4, true), (StageId.s5, true), (StageId.s6, true),
     (StageId.s8, true), (StageId.s9, true), (StageId.s10, true),
     (StageId.s11, true)]
    StageId.s3 rfl rfl (by decide) (by decide)
  exact ⟨h.1, by simpa using h.2.1, by simpa using h.2.2.1, h.2.2.2⟩

/-! ## Claim C7 -/

/-- C7: once the run reaches step 7 (driver creation, navigation and steps
1-6 succeed), the vehicle year sub-stage is attempted exactly when year, make
and model are all supplied (truthy); when the guard is off all three vehicle
sub-stages are skipped and no vehicle sub-stage can be the failing stage; and
when the guard holds with year and make selections succeeding, year, make and
model selection are all attempted. -/
theorem C7_vehicle_stage_guard (req : StartRequest) (w : BotWorld)
    (minCards basicCards betterCards : List Card)
    (hinit : w.initOk = true) (hnav : w.navOk = true)
    (h1 : w.step1Ok = true) (h2 : w.step2Ok = true) (h3 : w.step3Ok = true)
    (h4 : w.step4Ok = true) (h5 : w.step5Ok = true) (h6 : w.step6Ok = true) :
    ((StageId.s7year ∈ (start_bot req w minCards basicCards betterCards).attempted)
        ↔ vehicle_info_provided req = true)
    ∧ (vehicle_info_provided req = false →
        StageId.s7year ∉ (start_bot req w minCards basicCards betterCards).attempted
        ∧ StageId.s7make ∉ (start_bot req w minCards basicCards betterCards).attempted
        ∧ StageId.s7model ∉ (start_bot req w minCards basicCards betterCards).attempted
        ∧ ∀ s : StageId, (runStages (stageList req w)).firstFailed = some s →
            s ≠ StageId.s7year ∧ s ≠ StageId.s7make ∧ s ≠ StageId.s7model)
    ∧ (vehicle_info_provided req = true →
        w.step7YearOk = true → w.step7MakeOk = true →
        StageId.s7year ∈ (start_bot req w minCards basicCards betterCards).attempted
        ∧ StageId.s7make ∈ (start_bot req w minCards basicCards betterCards).attempted
        ∧ StageId.s7model ∈ (start_bot req w minCards basicCards betterCards).attempted) := by
  rw [start_bot_attempted_eq req w minCards basicCards betterCards hinit hnav]
  cases hv : vehicle_info_provided req with
  | false =>
    have hnot := vehicle_not_attempted_of_not_provided req w
      minCards basicCards betterCards hv
    rw [start_bot_attempted_eq req w minCards basicCards betterCards hinit hnav] at hnot
    refine ⟨by simp [hnot.1], fun _ => ⟨hnot.1, hnot.2.1, hnot.2.2, fun s hfs => ?_⟩,
      by simp⟩
    have hmem := runStages_firstFailed_mem (stageList req w) s hfs
    rw [stageList_map_fst_not_provided req w hv] at hmem
    revert hmem
    cases s <;> decide
  | true =>
    have hsplit : stageList req w =
        [(StageId.s1, w.step1Ok), (StageId.s2, w.step2Ok), (StageId.s3, w.step3Ok),
         (StageId.s4, w.step4Ok), (StageId.s5, w.step5Ok), (StageId.s6, w.step6Ok)]
        ++ ((StageId.s7year, w.step7YearOk) ::
            [(StageId.s7make, w.step7MakeOk), (StageId.s7model, w.step7ModelOk),
             (StageId.s8, w.step8Ok), (StageId.s9, w.step9Ok),
             (StageId.s10, w.step10Ok), (StageId.s11, w.step11Ok)]) := by
      simp [stageList, hv]
    have hpre6 : ∀ p ∈
        [(StageId.s1, w.step1Ok), (StageId.s2, w.step2Ok), (StageId.s3, w.step3Ok),
         (StageId.s4, w.step4Ok), (StageId.s5, w.step5Ok), (StageId.s6, w.step6Ok)],
        p.2 = true := by
      intro p hp
      simp only [List.mem_cons, List.mem_singleton] at hp
      rcases hp with h | h | h | h | h | h | h <;> first
        | (subst h; simpa)
        | simp at h
    have hyear : StageId.s7year ∈ (runStages (stageList req w)).attempted := by
      rw [hsplit, runStages_append_ok _ _ hpre6]
      simp only [WizardTrace.attempted]
      exact List.mem_append_right _ (runStages_head_attempted _ _ _)
    refine ⟨by simp [hyear], by simp, fun _ hy hmk => ⟨hyear, ?_, ?_⟩⟩
    · rw [hsplit, runStages_append_ok _ _ hpre6]
      refine List.mem_append_right _ ?_
      rw [show ((StageId.s7year, w.step7YearOk) ::
          [(StageId.s7make, w.step7MakeOk), (StageId.s7model, w.step7ModelOk),
           (StageId.s8, w.step8Ok), (StageId.s9, w.step9Ok),
           (StageId.s10, w.step10Ok), (StageId.s11, w.step11Ok)]) =
          [(StageId.s7year, w.step7YearOk)] ++ ((StageId.s7make, w.step7MakeOk) ::
          [(StageId.s7model, w.step7ModelOk), (StageId.s8, w.step8Ok),
           (StageId.s9, w.step9Ok), (StageId.s10, w.step10Ok),
           (StageId.s11, w.step11Ok)]) from rfl]
      rw [runStages_append_ok _ _ (by intro p hp; simp at hp; subst hp; simpa)]
      exact List.mem_append_right _ (runStages_head_attempted _ _ _)
    · rw [hsplit, runStages_append_ok _ _ hpre6]
      refine List.mem_append_right _ ?_
      rw [show ((StageId.s7year, w.step7YearOk) ::
          [(StageId.s7make, w.step7MakeOk), (StageId.s7model, w.step7ModelOk),
           (StageId.s8, w.step8Ok), (StageId.s9, w.step9Ok),
           (StageId.s10, w.step10Ok), (StageId.s11, w.step11Ok)]) =
          [(StageId.s7year, w.step7YearOk), (StageId.s7make, w.step7MakeOk)]
          ++ ((StageId.s7model, w.step7ModelOk) ::
          [(StageId.s8, w.step8Ok), (StageId.s9, w.step9Ok),
           (StageId.s10, w.step10Ok), (StageId.s11, w.step11Ok)]) from rfl]
      rw [runStages_append_ok _ _ ?_]
      · exact List.mem_append_right _ (runStages_head_attempted _ _ _)
      · intro p hp
        simp only [List.mem_cons, List.mem_singleton] at hp
        rcases hp with h | h | h <;> first
          | (subst h; simpa)
          | simp at h

/-- C7 witness: the run with year "2018", make "Toyota", model "Camry" in an
all-successful environment attempts year, make and model selection. -/
theorem C7_witness :
    StageId.s7year ∈ (start_bot ⟨some "2018", some "Toyota", some "Camry"⟩
        allOkWorld [] [] []).attempted
    ∧ StageId.s7make ∈ (start_bot ⟨some "2018", some "Toyota", some "Camry"⟩
        allOkWorld [] [] []).attempted
    ∧ StageId.s7model ∈ (start_bot ⟨some "2018", some "Toyota", some "Camry"⟩
        allOkWorld [] [] []).attempted := by
  have h := C7_vehicle_stage_guard ⟨some "2018", some "Toyota", some "Camry"⟩
    allOkWorld [] [] [] rfl rfl rfl rfl rfl rfl rfl rfl
  exact h.2.2 (by decide) rfl rfl

/-! ## Claim C8 -/

/-- C8: invoking start while a session is already active performs teardown of
the existing session as its first session operation, the number of active
sessions never exceeds one at any point of the run, and immediately after the
new session is created exactly one session is active. -/
theorem C8_session_exclusivity (req : StartRequest) (w : BotWorld)
    (h : w.initOk = true) :
    (startSessionOps true req w).head? = some SessOp.teardown
    ∧ afterFirstCreate 1 (startSessionOps true req w) = some 1
    ∧ ∀ n ∈ countsScan 1 (startSessionOps true req w), n ≤ 1 := by
  have hops : startSessionOps true req w =
      SessOp.teardown :: SessOp.create ::
        (if w.navOk = false then [SessOp.teardown]
         else
           match (runStages (stageList req w)).firstFailed with
           | some _ => []
           | none => [SessOp.teardown]) := by
    simp [startSessionOps, h]
  rw [hops]
  cases hnav : w.navOk with
  | false => simp [countsScan, applySessOp, afterFirstCreate]
  | true =>
    cases hf : (runStages (stageList req w)).firstFailed with
    | none => simp [hf, countsScan, applySessOp, afterFirstCreate]
    | some s => simp [hf, countsScan, applySessOp, afterFirstCreate]

/-- C8 witness: a concrete invocation with a previously active session in an
all-successful environment. -/
theorem C8_witness :
    (startSessionOps true ⟨none, none, none⟩ allOkWorld).head? = some SessOp.teardown
    ∧ afterFirstCreate 1 (startSessionOps true ⟨none, none, none⟩ allOkWorld) = some 1
    ∧ ∀ n ∈ countsScan 1 (startSessionOps true ⟨none, none, none⟩ allOkWorld), n ≤ 1 :=
  C8_session_exclusivity ⟨none, none, none⟩ allOkWorld rfl

/-! ## Claim C9 -/

/-- C9: when year, make and model are all present but at least one is the
empty string, the vehicle guard is off, the whole run is identical to the run
with that field omitted, and the vehicle-selection stage is never attempted. -/
theorem C9_empty_string_skips (w : BotWorld)
    (minCards basicCards betterCards : List Card) (y mk md : Option String)
    (h : y = some "" ∨ mk = some "" ∨ md = some "") :
    vehicle_info_provided ⟨y, mk, md⟩ = false
    ∧ start_bot ⟨y, mk, md⟩ w minCards basicCards betterCards
        = start_bot ⟨noneifyEmpty y, noneifyEmpty mk, noneifyEmpty md⟩ w
            minCards basicCards betterCards
    ∧ StageId.s7year ∉
        (start_bot ⟨y, mk, md⟩ w minCards basicCards betterCards).attempted := by
  have hprov : vehicle_info_provided ⟨y, mk, md⟩ = false := by
    rcases h with h | h | h <;> subst h <;>
      simp [vehicle_info_provided, pyTruthy]
  have hsl : stageList ⟨y, mk, md⟩ w
      = stageList ⟨noneifyEmpty y, noneifyEmpty mk, noneifyEmpty md⟩ w := by
    have hg : vehicle_info_provided ⟨noneifyEmpty y, noneifyEmpty mk, noneifyEmpty md⟩
        = vehicle_info_provided ⟨y, mk, md⟩ := by
      simp [vehicle_info_provided, pyTruthy_noneifyEmpty]
    simp [stageList, hg]
  refine ⟨hprov, ?_,
    (vehicle_not_attempted_of_not_provided _ w minCards basicCards betterCards hprov).1⟩
  unfold start_bot
  rw [hsl]

/-- C9 witness: an empty year with concrete make and model behaves exactly
like an omitted year. -/
theorem C9_witness :
    vehicle_info_provided ⟨some "", some "Toyota", some "Camry"⟩ = false
    ∧ start_bot ⟨some "", some "Toyota", some "Camry"⟩ allOkWorld [] [] []
        = start_bot ⟨none, some "Toyota", some "Camry"⟩ allOkWorld [] [] []
    ∧ StageId.s7year ∉
        (start_bot ⟨some "", some "Toyota", some "Camry"⟩ allOkWorld [] [] []).attempted := by
  have h := C9_empty_string_skips allOkWorld [] [] []
    (some "") (some "Toyota") (some "Camry") (Or.inl rfl)
  refine ⟨h.1, ?_, h.2.2⟩
  have e1 : noneifyEmpty (some "") = none := by decide
  have e2 : noneifyEmpty (some "Toyota") = some "Toyota" := by decide
  have e3 : noneifyEmpty (some "Camry") = some "Camry" := by decide
  have h21 := h.2.1
  rw [e1, e2, e3] at h21
  exact h21

/-! ## Claim C10 -/

/-- C10: a card with a truthy extracted price but no obtainable logo alt text
(or an alt text whose cleanup reduces to the empty string) still yields a
record, with company set to the literal "Unknown". -/
theorem C10_unknown_company (pt bi : String) (cd : Option String) (c : Card)
    (hp : pyTruthy (extract_price_amount c).1 = true)
    (halt : c.logoAlt = none ∨ ∃ a, c.logoAlt = some a ∧ strip_logo_alt a = "") :
    ∃ q : QuoteData, scrapeCard pt bi cd c = some q ∧ q.company = "Unknown" := by
  have hcomp : extract_company c.logoAlt = "Unknown" := by
    rcases halt with hA | ⟨a, ha, hsa⟩
    · rw [hA]
      rfl
    · rw [ha]
      simp [extract_company, hsa]
  rcases hpt : (extract_price_amount c).1 with _ | p
  · rw [hpt] at hp
    simp [pyTruthy] at hp
  · have hpne : p ≠ "" := by
      rw [hpt] at hp
      simpa [pyTruthy] using hp
    refine ⟨⟨"Unknown", p, bi, cd, pt⟩, ?_, rfl⟩
    unfold scrapeCard
    rw [hpt]
    dsimp only
    rw [if_neg hpne, hcomp]

/-- C10 witness: a concrete logo-less card whose price extraction succeeds. -/
theorem C10_witness :
    ∃ q : QuoteData,
      scrapeCard "minimum" "$15k/$30k" (some "0") plainCard = some q
      ∧ q.company = "Unknown" :=
  C10_unknown_company "minimum" "$15k/$30k" (some "0") plainCard
    (by decide) (Or.inl rfl)
